import Mathlib

/-!
Shallow embedding of the StudyMate ingestion-to-retrieval pipeline
(`src/core/block_processor.py`, `src/core/chunk_builder.py`,
`src/modules/layout_extractor.py`, `src/modules/page_job.py`,
`src/modules/model_server.py`, `src/pipeline/ingestor.py`,
`src/pipeline/indexer.py`, `src/pipeline/searcher.py`) together with
theorems settling the frozen claims about the natural-language spec.

Machine integers are modelled as `Int`/`Nat` (no overflow is relevant in
this code path), Python dict-based blocks as a `Block` structure whose
absent keys are the Python defaults the read sites supply, and fallible
code as `Except`.  External model calls (sentence embedding, YOLO layout
detection, OCR) are abstracted as opaque data or function parameters; the
control flow and data plumbing around them are translated from the source.
-/

namespace StudyMate

/-- Python exception values that the embedded code can raise.  `queueEmpty`
is the `queue.Empty` exception that `multiprocessing.Queue.get(timeout=...)`
raises when no item arrives within the timeout (Python stdlib semantics);
`timeoutError` is the builtin `TimeoutError`, a distinct exception class. -/
inductive PyExc where
  | valueError (msg : String)
  | runtimeError (msg : String)
  | fileNotFoundError (msg : String)
  | queueEmpty
  | timeoutError
  deriving DecidableEq, Repr

/-- The ASCII whitespace characters of the Python regex class `\s` and of
`str.split()` / `str.strip()` (the texts in this code path are ASCII).
Implemented over `List Char` by structural recursion so that the kernel
can evaluate concrete instances (the core `String` functions use
well-founded recursion, which `decide` cannot unfold). -/
def pyCharIsSpace (c : Char) : Bool :=
  c == ' ' || c == '\t' || c == '\n' || c == '\r' || c == '\x0b' || c == '\x0c'

/-- Helper of `pySplitWs`: split a char list on whitespace runs, carrying
the current word reversed. -/
def splitWsAux : List Char → List Char → List (List Char)
  | [], acc => if acc.isEmpty then [] else [acc.reverse]
  | c :: cs, acc =>
    if pyCharIsSpace c then
      if acc.isEmpty then splitWsAux cs [] else acc.reverse :: splitWsAux cs []
    else splitWsAux cs (c :: acc)

/-- Python `str.split()` with no arguments: split on runs of whitespace
and drop empty pieces. -/
def pySplitWs (s : String) : List String :=
  (splitWsAux s.data []).map String.mk

/-- Python `str.lower()`. -/
def pyLower (s : String) : String :=
  String.mk (s.data.map Char.toLower)

/-- Python `str.strip()`: drop leading and trailing whitespace. -/
def pyStrip (s : String) : String :=
  String.mk (((s.data.dropWhile pyCharIsSpace).reverse.dropWhile
    pyCharIsSpace).reverse)

/-- Join words with single spaces. -/
def joinWithSpace : List (List Char) → List Char
  | [] => []
  | [w] => w
  | w :: ws => w ++ ' ' :: joinWithSpace ws

/-- Python `needle in hay` on strings: some suffix of the haystack starts
with the needle. -/
def charsContains (needle : List Char) : List Char → Bool
  | [] => needle.isEmpty
  | c :: cs => needle.isPrefixOf (c :: cs) || charsContains needle cs

/-- Python `content.split("\n\n")`: greedy left-to-right split on the
two-character separator, carrying the current piece reversed. -/
def splitParas : List Char → List Char → List (List Char)
  | '\n' :: '\n' :: cs, acc => acc.reverse :: splitParas cs []
  | c :: cs, acc => splitParas cs (c :: acc)
  | [], acc => [acc.reverse]

/-- `len(txt.split())` — the word count used by the sanitizer and the merge
pass. -/
def wordCount (s : String) : Nat :=
  (pySplitWs s).length

/-- `BlockProcessor._norm_text`: `re.sub(r"\s+", " ", s).strip().lower()` —
collapse each whitespace run to one space, trim, lowercase.  Collapsing
runs and trimming is the same as splitting on whitespace and re-joining
with a single space. -/
def normText (s : String) : String :=
  pyLower (String.mk (joinWithSpace (splitWsAux s.data [])))

/-- A layout/text block (the Python dict `{type, text, page, y, filename,
user_id}`).  A key absent from the dict is modelled by the default the
code supplies at the read site (`b.get("type") or ""`, `b.get("page", 0)`,
`int(b.get("y", 0))`).  `y` is an `Int` because the sanitizer reads it
through `int(...)`; the extractors only produce integral y values. -/
structure Block where
  btype : String := ""
  text : String := ""
  page : Int := 0
  y : Int := 0
  filename : String := ""
  userId : String := ""
  deriving DecidableEq, Repr

/-! ## Block sanitizer (`BlockProcessor.remove_page_headers_footers`,
block_processor.py:38-119) -/

/-- Eligibility of a normalized text for the stats pass: the loop at
block_processor.py:68-78 skips empty texts and texts over the character or
word ceilings, so only eligible texts ever get a stats entry. -/
def hfEligible (maxChars maxWords : Nat) (t : String) : Bool :=
  t ≠ "" && t.length ≤ maxChars && wordCount t ≤ maxWords

/-- The occurrence list of a normalized text `t`: the blocks whose
normalized text equals `t`, in input order.  This is the stats-dict entry
for key `t` (pages added at line 77, ys collected at line 78). -/
def hfOccs (blocks : List Block) (t : String) : List Block :=
  blocks.filter (fun b => normText b.text == t)

/-- Maximum of a list of `Int`, with 0 for the empty list (only read when
the occurrence list is nonempty). -/
def intListMax : List Int → Int
  | [] => 0
  | x :: xs => xs.foldl max x

/-- Minimum of a list of `Int`, with 0 for the empty list. -/
def intListMin : List Int → Int
  | [] => 0
  | x :: xs => xs.foldl min x

/-- Membership of a normalized text in `texts_to_drop`
(block_processor.py:79-85): the text is eligible for stats, it occurs on
at least `min_repeat` distinct pages, and the spread between the minimum
and maximum `y` over all its occurrences is at most `y_tolerance`
(`ys[-1] - ys[0]` on the sorted occurrence list is `max - min`). -/
def isHFCandidate (minRepeat : Nat) (yTol : Int) (maxChars maxWords : Nat)
    (blocks : List Block) (t : String) : Bool :=
  let occs := hfOccs blocks t
  let pages := (occs.map (fun b => b.page)).dedup
  let ys := occs.map (fun b => b.y)
  hfEligible maxChars maxWords t
    && minRepeat ≤ pages.length
    && intListMax ys - intListMin ys ≤ yTol

/-- The output loop of `remove_page_headers_footers`
(block_processor.py:86-114), carrying the `current_page` /
`seen_header_this_page` state.  Note that the `page-footer` branch at
lines 96-98 only logs and has no `continue`, so a `page-footer`-typed
block falls through to the remaining checks; the `page-header` branch
drops the block whether or not a header was already seen on the page
(both paths `continue`, the second after setting the flag). -/
def hfDropLoop (isDrop : String → Bool) :
    Option Int → Bool → List Block → List Block
  | _, _, [] => []
  | curPage, seenHeader, b :: rest =>
    let page := b.page
    let sh := if some page = curPage then seenHeader else false
    let btype := pyLower b.btype
    let txtNorm := normText b.text
    if btype == "page-header" then
      hfDropLoop isDrop (some page) true rest
    else if isDrop txtNorm then
      hfDropLoop isDrop (some page) sh rest
    else
      b :: hfDropLoop isDrop (some page) sh rest

/-- `BlockProcessor.remove_page_headers_footers` with the source defaults
`min_repeat = 3`, `y_tolerance = 20`, `max_header_chars = 80`,
`max_header_words = 12`. -/
def removePageHeadersFooters (blocks : List Block) (minRepeat : Nat := 3)
    (yTol : Int := 20) (maxChars : Nat := 80) (maxWords : Nat := 12) :
    List Block :=
  hfDropLoop (isHFCandidate minRepeat yTol maxChars maxWords blocks)
    none false blocks

/-- The per-block keep condition that the output loop implements. -/
def hfKeep (isDrop : String → Bool) (b : Block) : Bool :=
  !(pyLower b.btype == "page-header") && !(isDrop (normText b.text))

/-! ## Chunk builder (`ChunkBuilder`, chunk_builder.py) -/

/-- The constructor arguments of `RecursiveCharacterTextSplitter` as built
by `ChunkBuilder.__init__` (chunk_builder.py:28-32). -/
structure SplitterConfig where
  chunkSize : Nat
  chunkOverlap : Nat
  separators : List String
  deriving DecidableEq, Repr

/-- `ChunkBuilder.__init__(tokenizer_model, chunk_size=500, logger=None)`:
the splitter is constructed with the literals `chunk_size=500` and
`chunk_overlap=50`; the `chunk_size` argument of the constructor is not
used anywhere in the class. -/
def chunkBuilderInit (tokenizerModel : String) (chunkSize : Nat) :
    SplitterConfig :=
  { chunkSize := 500
    chunkOverlap := 50
    separators := ["\n\n", "\n", ".", " ", ""] }

/-- The loop of `ChunkBuilder.merge_small_blocks` (chunk_builder.py:92-129)
carrying the pending `buffer`.  `txt` is the stripped text of the current
block, while `buffer = b.copy()` retains the original (unstripped) text of
the first buffered block; merging appends a space and the stripped text of
the absorbed block onto the buffer text without touching its other keys. -/
def mergeLoop (minWords : Nat) : Option Block → List Block → List Block
  | buf, [] =>
    match buf with
    | some b => [b]
    | none => []
  | buf, b :: rest =>
    let txt := pyStrip b.text
    let page := b.page
    let wc := wordCount txt
    if wc < minWords then
      match buf with
      | none => mergeLoop minWords (some b) rest
      | some buffered =>
        if buffered.page == page then
          mergeLoop minWords
            (some { buffered with text := buffered.text ++ " " ++ txt }) rest
        else
          buffered :: mergeLoop minWords (some b) rest
    else
      match buf with
      | some buffered =>
        if buffered.page == page then
          { buffered with text := buffered.text ++ " " ++ txt } ::
            mergeLoop minWords none rest
        else
          buffered :: b :: mergeLoop minWords none rest
      | none => b :: mergeLoop minWords none rest

/-- `ChunkBuilder.merge_small_blocks` with the source default
`min_words = 20` (the ingestor calls it with `min_words=20` as well,
ingestor.py:194). -/
def mergeSmallBlocks (blocks : List Block) (minWords : Nat := 20) :
    List Block :=
  mergeLoop minWords none blocks

/-! ## Layout extractor (`LayoutExtractor`, layout_extractor.py) -/

/-- A DOCX paragraph as seen by `_extract_docx`: its text and its style
name (`p.style.name`). -/
structure Paragraph where
  text : String
  styleName : String
  deriving DecidableEq, Repr

/-- Python `"heading" in s.lower()`: the lowercased style name contains
"heading" as a substring. -/
def styleIsHeading (s : String) : Bool :=
  charsContains "heading".data (pyLower s).data

/-- `LayoutExtractor._extract_docx` (layout_extractor.py:86-112): walk
paragraphs in order, skip paragraphs whose stripped text is empty,
classify by style name, and emit `{type, text, page: 0, y: 0.0}` — the
`y` value is the literal `0.0` for every paragraph. -/
def extractDocx : List Paragraph → List Block
  | [] => []
  | p :: rest =>
    let txt := pyStrip p.text
    if txt = "" then
      extractDocx rest
    else
      { btype := if styleIsHeading p.styleName then "title" else "text"
        text := txt, page := 0, y := 0 } :: extractDocx rest

/-- The same extraction written in the shape of the amended claim: keep
the paragraphs with nonempty stripped text and map each to a block typed
by its style, at page 0 and y fixed to 0. -/
def extractDocxSpec (paras : List Paragraph) : List Block :=
  (paras.filter (fun p => pyStrip p.text ≠ "")).map
    (fun p =>
      { btype := if styleIsHeading p.styleName then "title" else "text"
        text := pyStrip p.text, page := 0, y := 0 })

/-- `LayoutExtractor._extract_txt` (layout_extractor.py:114-131): split the
file content on blank-line boundaries, strip, drop empties, and emit
blocks whose `y` is the paragraph index. -/
def extractTxt (content : String) : List Block :=
  let paras := ((splitParas content.data []).map
    (fun cs => pyStrip (String.mk cs))).filter (fun p => p ≠ "")
  paras.enum.map
    (fun ip => { btype := "text", text := ip.2, page := 0, y := (ip.1 : Int) })

/-- A source document handed to `LayoutExtractor.extract`.  The `.pdf`
branch needs the external model server and OCR engine and is not modelled;
`other` stands for any file whose extension is none of the three supported
ones. -/
inductive DocFile where
  | txt (name : String) (content : String)
  | docx (name : String) (paras : List Paragraph)
  | other (name : String) (ext : String)
  deriving DecidableEq, Repr

/-- `doc.name` of a document path. -/
def docName : DocFile → String
  | .txt n _ => n
  | .docx n _ => n
  | .other n _ => n

/-- `LayoutExtractor.extract` (layout_extractor.py:133-158): dispatch on
the lowercased extension; an unsupported extension raises
`ValueError(f"Unsupported file type: {ext}")`. -/
def layoutExtract : DocFile → Except PyExc (List Block)
  | .txt _ content => .ok (extractTxt content)
  | .docx _ paras => .ok (extractDocx paras)
  | .other _ ext => .error (.valueError ("Unsupported file type: " ++ ext))

/-- Whether `LayoutExtractor.extract` has no branch for the document (its
extension is none of `.pdf`, `.docx`, `.txt`). -/
def isUnsupported : DocFile → Bool
  | .other _ _ => true
  | _ => false

/-! ## Ingestion orchestrator (`Ingestor`, ingestor.py) -/

/-- `process_document_task` (ingestor.py:16-47): extract the blocks of one
document and annotate each with `filename` and `user_id`.  Any exception
of the extractor propagates out of the worker. -/
def processDocumentTask (userId : String) (d : DocFile) :
    Except PyExc (List Block) :=
  (layoutExtract d).map
    (fun bs => bs.map (fun b => { b with filename := docName d, userId := userId }))

/-- The `Pool.starmap(process_document_task, tasks)` call
(ingestor.py:158-159): one result list per document, in document order; if
any worker raises, `starmap` re-raises and the whole call fails. -/
def starmapExtract (userId : String) : List DocFile →
    Except PyExc (List (List Block))
  | [] => .ok []
  | d :: rest => do
    let bs ← processDocumentTask userId d
    let rests ← starmapExtract userId rest
    pure (bs :: rests)

/-- `Ingestor.process_blocks` in layout mode (ingestor.py:151-176): fan
the documents out over the pool, flatten the per-document block lists, and
sanitize the flattened list.  There is no try/except around the pool call
or anywhere in the method. -/
def processBlocks (userId : String) (docs : List DocFile) :
    Except PyExc (List Block) := do
  let results ← starmapExtract userId docs
  let blocks := results.flatten
  pure (removePageHeadersFooters blocks)

/-! ## Page job and model server (`page_job.py`, `model_server.py`) -/

/-- The response-wait loop of `page_job` (page_job.py:57-63).  The
response queue is modelled as the FIFO list of messages available to this
caller; `server_resp_q.get(timeout=30)` on a queue that receives nothing
more raises `queue.Empty` — that is what an exhausted list models.  A
response for another job is re-enqueued at the back and waiting continues;
`fuel` bounds how many dequeues fit in the 30-second window, and when it
runs out the pending `get` likewise ends by raising `queue.Empty`. -/
def pageJobWait : Nat → String → List (String × String) →
    Except PyExc String
  | _, _, [] => .error .queueEmpty
  | 0, _, _ => .error .queueEmpty
  | fuel + 1, jobId, (jid, r) :: rest =>
    if jid == jobId then .ok r
    else pageJobWait fuel jobId (rest ++ [(jid, r)])

/-- `model_server` (model_server.py:61-73): consume jobs from the request
queue, answering each on the response queue, until a `None` sentinel is
received, at which point the loop breaks and nothing further is emitted.
The YOLO inference is abstracted as `infer`; an empty request list stands
for a server still blocked on `get`. -/
def modelServer (infer : String → String) :
    List (Option (String × String)) → List (String × String)
  | [] => []
  | none :: _ => []
  | some (jid, png) :: rest => (jid, infer png) :: modelServer infer rest

/-! ## Vector indexer and searcher (`indexer.py`, `searcher.py`) -/

/-- A chunk as persisted in `chunks_<user_id>.json` (the fields
`index_chunks` reads: `chunk_id`, `filename`, `text`). -/
structure ChunkRec where
  chunk_id : Nat
  filename : String
  text : String
  deriving DecidableEq, Repr

/-- The metadata attached to a stored vector record
(indexer.py:119-123). -/
structure VecMeta where
  user_id : String
  filename : String
  chunk_id : Nat
  deriving DecidableEq, Repr

/-- One record of the shared Chroma collection `documents`: the document
text and its metadata (the embedding vector is external math and does not
affect which record an id refers to). -/
structure StoreRec where
  text : String
  meta : VecMeta
  deriving DecidableEq, Repr

/-- The shared Chroma collection, keyed by the string id passed to
`collection.add` — which is `str(chunk_id)`, with no user scoping
(indexer.py:115, 124).  Both `Indexer` and `Searcher` open the same
collection name `documents`. -/
abbrev ChromaStore := List (String × StoreRec)

/-- `collection.add(ids=..., documents=..., metadatas=..., ...)`: chromadb
skips an id that is already present in the collection (it logs an
existing-embedding-id warning and leaves the stored record unchanged), so
an add is an insert-if-absent per entry. -/
def chromaAdd (store : ChromaStore) (entries : List (String × StoreRec)) :
    ChromaStore :=
  entries.foldl
    (fun st e => if (st.lookup e.1).isSome then st else st ++ [e]) store

/-- The collection writes of `Indexer.index_chunks` (indexer.py:108-124):
for each chunk, id `str(chunk_id)`, the chunk text, and metadata
`{user_id, filename, chunk_id}` where `user_id` is the indexing user. -/
def indexChunksStore (userId : String) (store : ChromaStore)
    (chunks : List ChunkRec) : ChromaStore :=
  chromaAdd store
    (chunks.map (fun ch =>
      (toString ch.chunk_id,
        { text := ch.text
          meta := { user_id := userId, filename := ch.filename
                    chunk_id := ch.chunk_id } })))

/-- The per-user `mapping_<user_id>.json` written at indexer.py:132-134:
ANN label `i` maps to `str(chunks[i].chunk_id)`; the searcher converts the
value back with `int(...)`, so the round trip is the identity on the
numeric chunk id and the mapping is modelled positionally. -/
def indexMapping (chunks : List ChunkRec) : List Nat :=
  chunks.map (fun ch => ch.chunk_id)

/-- One entry of the list `Searcher.search` returns (searcher.py:101-108).
The similarity score is external ANN output and is not modelled — it does
not affect which record a result carries. -/
structure SearchResult where
  id : Nat
  text : String
  meta : VecMeta
  deriving DecidableEq, Repr

/-- The join performed by `Searcher.search` (searcher.py:89-111): the ANN
labels returned by `knn_query` (external vector math, abstracted as the
`labels` argument — for a user they range over the dense labels of that
user's own index) are translated through the user's mapping file to chunk
ids, and the records under those ids are fetched from the shared
collection with `collection.get(ids=...)` — with no `where` filter on
`user_id` anywhere. -/
def searcherSearch (store : ChromaStore) (mapping : List Nat)
    (labels : List Nat) : List SearchResult :=
  let ids := labels.filterMap (fun l => mapping.get? l)
  ids.filterMap
    (fun i => (store.lookup (toString i)).map
      (fun r => { id := i, text := r.text, meta := r.meta }))

/-- The per-user on-disk artifacts that `Indexer` writes and `Searcher`
reads: the chunks file (`none` = file does not exist), the HNSW index file
`hnsw_index_<user_id>.bin` (recorded with its element count), and the
mapping file `mapping_<user_id>.json`. -/
structure UserIndexState where
  chunksFile : Option (List ChunkRec)
  hnswIndexFile : Option Nat
  mappingFile : Option (List Nat)
  deriving DecidableEq, Repr

/-- `Indexer.load_chunks` (indexer.py:77-82): a missing chunks file is
logged and yields `[]`; otherwise the file contents are returned. -/
def loadChunks (st : UserIndexState) : List ChunkRec :=
  st.chunksFile.getD []

/-- The file writes of `Indexer.index_chunks` (indexer.py:126-134): the
HNSW index over the chunk embeddings and the label-to-chunk-id mapping. -/
def indexChunksRun (st : UserIndexState) (chunks : List ChunkRec) :
    UserIndexState :=
  { st with hnswIndexFile := some chunks.length
            mappingFile := some (indexMapping chunks) }

/-- `Indexer.run` (indexer.py:136-155): load the chunks and call
`index_chunks` only when the list is truthy — an empty chunk list skips
indexing entirely, so nothing is written. -/
def indexerRun (st : UserIndexState) : UserIndexState :=
  let chunks := loadChunks st
  if chunks.isEmpty then st else indexChunksRun st chunks

/-- `Searcher.__init__` (searcher.py:52-53): `load_index` on
`hnsw_index_<user_id>.bin` raises a `RuntimeError` when the file does not
exist, so construction fails before any query can run. -/
def searcherInit (st : UserIndexState) : Except PyExc Unit :=
  match st.hnswIndexFile with
  | some _ => .ok ()
  | none => .error (.runtimeError "hnsw load_index: file not found")

/-! ## Concrete inputs used by the claims -/

/-- A single block tagged `page-footer` by the extractor whose text recurs
on no other page. -/
def exFooter : Block :=
  { btype := "page-footer", text := "Page 3 of 10", page := 0, y := 700 }

/-- The spec scenario: three pages each with a block normalizing to
"confidential draft" at y = 100, 105, 98. -/
def exConfidential : List Block :=
  [ { text := "Confidential Draft", page := 0, y := 100 },
    { text := "confidential  DRAFT", page := 1, y := 105 },
    { text := "Confidential Draft", page := 2, y := 98 } ]

/-- A single `page-header`-tagged block whose text is not a repeated-text
candidate (it occurs on one page only). -/
def exHeaderOnly : List Block :=
  [ { btype := "page-header", text := "Intro", page := 0, y := 0 } ]

/-- Four blocks with the same text "t": one `page-header` at y = 1000 and
three untyped ones at y = 0 on pages 0, 1, 2.  In the first sanitizer pass
the group spread is 1000 > 20, so the text is not a candidate and only the
header is dropped (by its type); in the second pass the remaining spread
is 0, the text becomes a candidate, and the three survivors are dropped. -/
def exIdem : List Block :=
  [ { btype := "page-header", text := "t", page := 0, y := 1000 },
    { text := "t", page := 0, y := 0 },
    { text := "t", page := 1, y := 0 },
    { text := "t", page := 2, y := 0 } ]

/-- An under-sized block (2 words < 20). -/
def exSmall : Block :=
  { text := "Deep learning", page := 0 }

/-- A full-size block (21 words ≥ 20) on the same page. -/
def exBig : Block :=
  { text := "Neural networks learn layered representations of data and can be trained end to end by gradient descent on very large corpora today"
    page := 0 }

/-- The single output block of the merge pass on `[exSmall, exBig]`: the
full-size block was absorbed into the buffered under-sized one. -/
def exMerged : Block :=
  { exSmall with text := exSmall.text ++ " " ++ pyStrip exBig.text }

/-- A supported plain-text document. -/
def exGoodDoc : DocFile :=
  .txt "a.txt" "Intro text here.\n\nBody paragraph with more content."

/-- A document with an unsupported extension. -/
def exBadDoc : DocFile :=
  .other "slides.xyz" ".xyz"

/-- A DOCX paragraph list with a heading, two body paragraphs and one
blank paragraph. -/
def exParas : List Paragraph :=
  [ { text := "Overview", styleName := "Heading 1" },
    { text := "First paragraph", styleName := "Normal" },
    { text := "   ", styleName := "Normal" },
    { text := "Second paragraph", styleName := "Normal" } ]

/-- User B ingested one document; its first chunk got `chunk_id = 0`. -/
def exChunkB : ChunkRec :=
  { chunk_id := 0, filename := "notes.txt", text := "user B private notes" }

/-- User A ingested one document; its first chunk also got `chunk_id = 0`
because chunk ids are assigned sequentially from 0 in every ingestion
run. -/
def exChunkA : ChunkRec :=
  { chunk_id := 0, filename := "lecture.txt", text := "user A lecture" }

/-- The shared collection after B indexed and then A indexed. -/
def exStoreBA : ChromaStore :=
  indexChunksStore "A" (indexChunksStore "B" [] [exChunkB]) [exChunkA]

/-- The on-disk state of a user whose ingestion produced an empty chunk
list (the chunks file exists and holds `[]`) and who has never been
indexed before. -/
def exEmptyChunks : UserIndexState :=
  { chunksFile := some [], hnswIndexFile := none, mappingFile := none }

/-! ## Helper theorems about the sanitizer -/

theorem hfDropLoop_eq_filter (isDrop : String → Bool) :
    ∀ (curPage : Option Int) (seenHeader : Bool) (blocks : List Block),
      hfDropLoop isDrop curPage seenHeader blocks =
        blocks.filter (hfKeep isDrop) := by
  intro curPage seenHeader blocks
  induction blocks generalizing curPage seenHeader with
  | nil => rfl
  | cons b rest ih =>
    simp only [hfDropLoop, List.filter, hfKeep]
    by_cases h1 : pyLower b.btype == "page-header"
    · simp [h1, ih]
    · by_cases h2 : isDrop (normText b.text)
      · simp [h1, h2, ih]
      · simp [h1, h2, ih]

/-- Characterization of the sanitizer output: a block survives exactly
when its lowercased type tag is not `page-header` and its normalized text
is not in `texts_to_drop`.  The loop state (`current_page`,
`seen_header_this_page`) is irrelevant because both branches of the
`page-header` case drop the block. -/
theorem mem_removePageHeadersFooters (minRepeat : Nat) (yTol : Int)
    (maxChars maxWords : Nat) (blocks : List Block) (b : Block) :
    b ∈ removePageHeadersFooters blocks minRepeat yTol maxChars maxWords ↔
      b ∈ blocks ∧ pyLower b.btype ≠ "page-header" ∧
        isHFCandidate minRepeat yTol maxChars maxWords blocks
          (normText b.text) = false := by
  rw [removePageHeadersFooters, hfDropLoop_eq_filter, List.mem_filter, hfKeep]
  simp [and_assoc]

/-- If every block carrying normalized text `t` passes the filter, the
occurrence list of `t` is unchanged by the filter. -/
theorem hfOccs_filter (blocks : List Block) (P : Block → Bool) (t : String)
    (h : ∀ b ∈ blocks, normText b.text = t → P b = true) :
    hfOccs (blocks.filter P) t = hfOccs blocks t := by
  rw [hfOccs, hfOccs, List.filter_filter]
  apply List.filter_congr
  intro b hb
  by_cases ht : normText b.text = t
  · simp [ht, h b hb ht]
  · simp [ht]

/-- Candidacy only depends on the occurrence list of the text. -/
theorem isHFCandidate_filter (minRepeat : Nat) (yTol : Int)
    (maxChars maxWords : Nat) (blocks : List Block) (P : Block → Bool)
    (t : String)
    (h : hfOccs (blocks.filter P) t = hfOccs blocks t) :
    isHFCandidate minRepeat yTol maxChars maxWords (blocks.filter P) t =
      isHFCandidate minRepeat yTol maxChars maxWords blocks t := by
  rw [isHFCandidate, isHFCandidate, h]

/-- Propagation of an extraction failure through the worker pool: when any
document in the list is unsupported, `starmap` re-raises and the whole
extraction call fails. -/
theorem starmapExtract_error (uid : String) :
    ∀ docs : List DocFile, (∃ d ∈ docs, isUnsupported d = true) →
      ∃ e, starmapExtract uid docs = .error e := by
  intro docs
  induction docs with
  | nil =>
    rintro ⟨d, hd, -⟩
    exact absurd hd (List.not_mem_nil d)
  | cons d rest ih =>
    rintro ⟨d2, hd2, hu⟩
    rcases List.mem_cons.mp hd2 with h | h
    · subst h
      cases d2 with
      | txt n c => simp [isUnsupported] at hu
      | docx n ps => simp [isUnsupported] at hu
      | other n ext =>
        refine ⟨.valueError ("Unsupported file type: " ++ ext), ?_⟩
        simp [starmapExtract, processDocumentTask, layoutExtract, Except.map,
          Bind.bind, Except.bind]
    · obtain ⟨e, he⟩ := ih ⟨d2, h, hu⟩
      cases hpd : processDocumentTask uid d with
      | error e2 =>
        exact ⟨e2, by simp [starmapExtract, hpd, Bind.bind, Except.bind]⟩
      | ok bs =>
        exact ⟨e, by
          simp [starmapExtract, hpd, he, Bind.bind, Except.bind, Functor.map,
            Except.map]⟩

/-! ## Claim theorems -/

/-- C1: the claim says a search for user A returns only results whose
metadata `user_id` is A, even when sequential chunk ids of two users
overlap in the shared metadata store.  The code refutes it: the Chroma
collection `documents` is shared, `index_chunks` keys records by the bare
`str(chunk_id)` (indexer.py:115), and `Searcher.search` fetches by those
ids with no `user_id` filter (searcher.py:100).  Here user B indexed a
chunk with `chunk_id = 0` first, user A then indexed their own chunk 0
(the add of the duplicate id is skipped by the store), and a search for A
whose ANN lookup returns label 0 hands A the record whose metadata
`user_id` is B. -/
theorem claim_C1_search_returns_other_users_chunk :
    searcherSearch exStoreBA (indexMapping [exChunkA]) [0] =
      [{ id := 0, text := "user B private notes"
         meta := { user_id := "B", filename := "notes.txt", chunk_id := 0 } }] ∧
    ("B" : String) ≠ "A" :=
  ⟨by decide, by decide⟩

/-- C2: the claim says every block whose lowercased type tag is
`page-footer` is absent from the sanitizer output.  The code refutes it:
the `page-footer` branch (block_processor.py:96-98) logs
"drop footer" but has no `continue`, so the block falls through and is
kept whenever its text is not a repeated-text candidate — as for this
single footer block, which survives unchanged. -/
theorem claim_C2_page_footer_block_survives :
    removePageHeadersFooters [exFooter] = [exFooter] ∧
      pyLower exFooter.btype = "page-footer" :=
  ⟨by decide, by decide⟩

/-- C3 counterexample: a user whose chunks file exists and holds the empty
list, never indexed before.  `Indexer.run` leaves the state untouched (no
zero-entry index is written, because `if chunks:` skips `index_chunks` on
an empty list, indexer.py:153), and `Searcher.__init__` then fails loading
`hnsw_index_<user_id>.bin` — search cannot return an empty result list
without error, contrary to the claim. -/
theorem claim_C3_counterexample :
    indexerRun exEmptyChunks = exEmptyChunks ∧
    (indexerRun exEmptyChunks).hnswIndexFile = none ∧
    searcherInit (indexerRun exEmptyChunks) =
      .error (.runtimeError "hnsw load_index: file not found") :=
  ⟨rfl, rfl, rfl⟩

/-- C3 amended: for a user whose chunk set was empty at index time,
running the Indexer writes nothing at all (no index with zero entries),
and when no index file pre-exists for that user, a subsequent search fails
at Searcher initialization — the same failure as for a never-indexed
user — instead of returning an empty result list. -/
theorem claim_C3_amended (st : UserIndexState) (h1 : loadChunks st = [])
    (h2 : st.hnswIndexFile = none) :
    indexerRun st = st ∧ ∃ e, searcherInit (indexerRun st) = .error e := by
  have hrun : indexerRun st = st := by
    simp [indexerRun, h1]
  refine ⟨hrun, ?_⟩
  rw [hrun]
  refine ⟨.runtimeError "hnsw load_index: file not found", ?_⟩
  simp [searcherInit, h2]

/-- C3 witness: the amended theorem applied to the concrete empty-chunks
state. -/
theorem claim_C3_witness :
    indexerRun exEmptyChunks = exEmptyChunks ∧
      ∃ e, searcherInit (indexerRun exEmptyChunks) = .error e :=
  claim_C3_amended exEmptyChunks (by decide) (by decide)

/-- C4 counterexample: one supported text document followed by one
document with an unsupported extension.  `process_blocks` has no
try/except around the pool call, so the `ValueError` of the unsupported
document propagates and the whole run aborts — no chunks are produced for
the supported document either, contrary to the claim that it is merely
skipped. -/
theorem claim_C4_counterexample :
    processBlocks "u" [exGoodDoc, exBadDoc] =
      .error (.valueError "Unsupported file type: .xyz") := by
  rfl

/-- C4 amended: the failure of a single document aborts the whole
ingestion run — whenever any document of the run has an unsupported
extension, `process_blocks` raises instead of producing the other
documents blocks. -/
theorem claim_C4_amended (uid : String) (docs : List DocFile)
    (h : ∃ d ∈ docs, isUnsupported d = true) :
    ∃ e, processBlocks uid docs = .error e := by
  obtain ⟨e, he⟩ := starmapExtract_error uid docs h
  exact ⟨e, by simp [processBlocks, he]⟩

/-- C4 witness: the amended theorem applied to the concrete two-document
run. -/
theorem claim_C4_witness :
    (∃ d ∈ [exGoodDoc, exBadDoc], isUnsupported d = true) ∧
      ∃ e, processBlocks "u" [exGoodDoc, exBadDoc] = .error e :=
  ⟨⟨exBadDoc, by decide, by decide⟩,
    claim_C4_amended "u" [exGoodDoc, exBadDoc] ⟨exBadDoc, by decide, by decide⟩⟩

/-- C5: the claim says the page worker fails with `TimeoutError` when no
response bearing its job id arrives within the bounded wait, in particular
after the server is shut down via the sentinel.  The code refutes the
exception type: `server_resp_q.get(timeout=30)` (page_job.py:58) raises
`queue.Empty` on timeout, not `TimeoutError` — even though the docstring
of `page_job` itself announces `TimeoutError`.  The wait does end (no
hang), but in `queue.Empty`, for every amount of polling fuel. -/
theorem claim_C5_wait_raises_queue_empty (infer : String → String)
    (fuel : Nat) (jobId : String) :
    modelServer infer [none] = [] ∧
    pageJobWait fuel jobId (modelServer infer [none]) = .error .queueEmpty ∧
    PyExc.queueEmpty ≠ PyExc.timeoutError := by
  refine ⟨rfl, ?_, by decide⟩
  cases fuel <;> rfl

/-- C6 amended: with `min_words = 20`, an under-sized buffered block
merges with the next block only when they share the same page, and a page
change flushes the buffer as its own separate output block; but a
full-size next block on the same page does NOT flush the buffer as a
separate block — it is absorbed into the buffer and the combined block is
emitted — while a full-size next block on a different page flushes the
buffer and is emitted as its own block. -/
theorem claim_C6_amended (b1 b2 : Block) (rest : List Block)
    (h1 : wordCount (pyStrip b1.text) < 20) :
    mergeSmallBlocks (b1 :: b2 :: rest) =
      if wordCount (pyStrip b2.text) < 20 then
        (if b1.page == b2.page then
          mergeLoop 20
            (some { b1 with text := b1.text ++ " " ++ pyStrip b2.text }) rest
        else
          b1 :: mergeLoop 20 (some b2) rest)
      else
        (if b1.page == b2.page then
          { b1 with text := b1.text ++ " " ++ pyStrip b2.text } ::
            mergeLoop 20 none rest
        else
          b1 :: b2 :: mergeLoop 20 none rest) := by
  rw [mergeSmallBlocks, mergeLoop]
  simp only [if_pos h1]
  rw [mergeLoop]

/-- C6 witness: the amended theorem applied to an under-sized block
followed by a same-page full-size block. -/
theorem claim_C6_witness :
    wordCount (pyStrip exSmall.text) < 20 ∧
      mergeSmallBlocks [exSmall, exBig] = [exMerged] := by
  refine ⟨by decide, ?_⟩
  rw [claim_C6_amended exSmall exBig [] (by decide)]
  decide

/-- C6 counterexample: an under-sized block followed by a same-page
full-size block yields ONE merged output block, not the two separate
blocks (flushed buffer plus stand-alone full-size block) the claim
requires. -/
theorem claim_C6_counterexample :
    mergeSmallBlocks [exSmall, exBig] = [exMerged] ∧
    (mergeSmallBlocks [exSmall, exBig]).length ≠ 2 :=
  ⟨by decide, by decide⟩

/-- C7 counterexample: a single block type-tagged `page-header` whose text
occurs on one page only, hence is not a repeated-text candidate.  The
sanitizer drops it anyway, so it does not drop EXACTLY the candidate-text
blocks as the claim states. -/
theorem claim_C7_counterexample :
    removePageHeadersFooters exHeaderOnly = [] ∧
      isHFCandidate 3 20 80 12 exHeaderOnly (normText "Intro") = false :=
  ⟨by decide, by decide⟩

/-- C7 amended: with defaults `min_repeat = 3` and `y_tolerance = 20`, the
sanitizer keeps a block exactly when its lowercased type tag is not
`page-header` and its normalized text is not a candidate (nonempty, within
the length ceilings, on at least 3 distinct pages, y-spread at most 20);
so among blocks not tagged `page-header` exactly the candidate-text blocks
are dropped, and `page-header`-tagged blocks are dropped additionally.  In
particular the three "confidential draft" blocks at y = 100, 105, 98 on
three pages are all dropped. -/
theorem claim_C7_amended :
    (∀ (blocks : List Block) (b : Block),
      b ∈ removePageHeadersFooters blocks ↔
        b ∈ blocks ∧ pyLower b.btype ≠ "page-header" ∧
          isHFCandidate 3 20 80 12 blocks (normText b.text) = false) ∧
    removePageHeadersFooters exConfidential = [] :=
  ⟨fun blocks b => mem_removePageHeadersFooters 3 20 80 12 blocks b, by decide⟩

/-- C8: the claim says the chunk size bound follows the externally
configured chunk target size and overlap for every configuration value.
The code refutes it: `ChunkBuilder.__init__` discards its `chunk_size`
argument (which callers fill from `config["chunking"]["chunk_size"]`,
main.py:76-80) and constructs the splitter with the literals
`chunk_size=500, chunk_overlap=50` — so with a configured target of 100
the splitter still produces chunks up to 500 characters, beyond the
claimed bound of 100 + 50. -/
theorem claim_C8_splitter_ignores_configured_size :
    (∀ (tm : String) (cs : Nat),
      chunkBuilderInit tm cs =
        { chunkSize := 500, chunkOverlap := 50
          separators := ["\n\n", "\n", ".", " ", ""] }) ∧
    (chunkBuilderInit "all-MiniLM-L6-v2" 100).chunkSize = 500 ∧
    ¬ (chunkBuilderInit "all-MiniLM-L6-v2" 100).chunkSize ≤ 100 + 50 :=
  ⟨fun _ _ => rfl, rfl, by decide⟩

/-- C9 counterexample: four blocks with the same short text, one of them a
`page-header` at y = 1000.  The first pass drops only the header (the
group y-spread 1000 exceeds the tolerance, so the text is no candidate);
in the second pass the surviving occurrences have spread 0, the text
becomes a candidate, and all three survivors are dropped — the sanitizer
is not idempotent. -/
theorem claim_C9_counterexample :
    removePageHeadersFooters (removePageHeadersFooters exIdem) ≠
      removePageHeadersFooters exIdem := by
  decide

/-- C9 amended: the sanitizer is idempotent on every block list containing
no `page-header`-typed block (for any parameter values); in general a
second pass can drop more blocks, because removing a header-typed
occurrence can shrink a text group's y-spread into tolerance. -/
theorem claim_C9_amended (minRepeat : Nat) (yTol : Int)
    (maxChars maxWords : Nat) (blocks : List Block)
    (hnohdr : ∀ b ∈ blocks, pyLower b.btype ≠ "page-header") :
    removePageHeadersFooters
        (removePageHeadersFooters blocks minRepeat yTol maxChars maxWords)
        minRepeat yTol maxChars maxWords =
      removePageHeadersFooters blocks minRepeat yTol maxChars maxWords := by
  rw [removePageHeadersFooters, removePageHeadersFooters,
      hfDropLoop_eq_filter, hfDropLoop_eq_filter]
  apply List.filter_eq_self.mpr
  intro b hb
  obtain ⟨hbblocks, hbK⟩ := List.mem_filter.mp hb
  have hhdr : (pyLower b.btype == "page-header") = false := by
    simpa using hnohdr b hbblocks
  rw [hfKeep, hhdr] at hbK
  have hcb : isHFCandidate minRepeat yTol maxChars maxWords blocks
      (normText b.text) = false := by
    simpa using hbK
  have hocc :
      hfOccs (blocks.filter
          (hfKeep (isHFCandidate minRepeat yTol maxChars maxWords blocks)))
        (normText b.text) = hfOccs blocks (normText b.text) := by
    apply hfOccs_filter
    intro b2 hb2 ht
    have h2 : (pyLower b2.btype == "page-header") = false := by
      simpa using hnohdr b2 hb2
    rw [hfKeep, h2, ht, hcb]
    rfl
  rw [hfKeep, hhdr, isHFCandidate_filter _ _ _ _ _ _ _ hocc, hcb]
  rfl

/-- C9 witness: the amended theorem applied to the header-free
"confidential draft" scenario blocks. -/
theorem claim_C9_witness :
    removePageHeadersFooters (removePageHeadersFooters exConfidential) =
      removePageHeadersFooters exConfidential :=
  claim_C9_amended 3 20 80 12 exConfidential (by decide)

/-- C10 counterexample: a DOCX paragraph list with three nonempty
paragraphs.  Every emitted block has y = 0 (the literal `0.0` at
layout_extractor.py:110), so y is not the sequential index [0, 1, 2] the
claim states, and distinct paragraphs do not get distinct increasing y
values. -/
theorem claim_C10_counterexample :
    (extractDocx exParas).map (fun b => b.y) = [0, 0, 0] ∧
      ([0, 0, 0] : List Int) ≠ [0, 1, 2] :=
  ⟨by decide, by decide⟩

/-- C10 amended: DOCX extraction walks paragraphs in order and emits, for
each paragraph with nonempty stripped text, a block typed `title` when the
lowercased style name contains "heading" and `text` otherwise, with page
fixed at 0 and y fixed at 0.0 for every paragraph — y does not encode the
paragraph index; ordering is carried only by list position. -/
theorem claim_C10_amended :
    ∀ paras, extractDocx paras = extractDocxSpec paras := by
  intro paras
  induction paras with
  | nil => rfl
  | cons p rest ih =>
    rw [extractDocx]
    by_cases h : pyStrip p.text = ""
    · rw [if_pos h, ih, extractDocxSpec, extractDocxSpec, List.filter_cons]
      simp [h]
    · rw [if_neg h, ih, extractDocxSpec, extractDocxSpec, List.filter_cons]
      simp [h]

end StudyMate
